import Mathlib

/-!
Shallow embedding of the retrieval / map-reduce answering pipeline of
`app/utils.py` and `app/rag_chat.py`.

Modelling conventions:
* A retrieved document chunk is a `Document` (content string plus metadata,
  modelled as an association list of string pairs, as the code only reads
  metadata through `dict.get`).
* Relevance scores are floats in the code; they are modelled as rationals
  (`ℚ`), which preserves the ordering behaviour the code relies on.
* The vector stores and the OpenAI completion client are external
  collaborators; they are passed in as function parameters:
  `db_ok : ChromaSpec → Bool` models whether `_load_chroma_db` succeeds for a
  spec, `search : ChromaSpec → String → List ScoredChunk` models
  `_similarity_search_from_db` (which returns `[]` both on a missing store and
  on a search error), and `complete : CompletionRequest → Except String String`
  models `openai_client.chat.completions.create` (`Except.error e` models a
  raised exception with message `e`, `Except.ok c` a response whose first
  choice has content `c`).
* `get_answer` additionally returns the ordered trace of completion requests
  it issued, so that claims about which calls are made (and with which
  temperature) can be stated.
* Python `None` for the `query` argument is modelled as `""` (both are falsy
  and behave identically on every path the claims touch); the
  `selected_standard` argument is an `Option String` so that `None` and an
  empty string can be distinguished where the code distinguishes truthiness.
* The write-only global `chat_state` does not influence any output and is not
  modelled; `follow_up_answer` and `original_query` are unused by the result.
-/

/-- A document chunk: `page_content` plus `metadata` (a string-keyed dict,
modelled as an association list; the code reads it only via `.get`). -/
structure Document where
  page_content : String
  metadata : List (String × String)
deriving DecidableEq

/-- A `(doc, score)` pair as returned by
`similarity_search_with_relevance_scores`. -/
abbrev ScoredChunk := Document × ℚ

/-- Python `d.get(key, deflt)` on an association-list model of a dict. -/
def dict_get (md : List (String × String)) (key deflt : String) : String :=
  (md.lookup key).getD deflt

/-- One entry of `CHROMA_SPECS`: a persist path and a collection name. -/
structure ChromaSpec where
  path : String
  collection : String
deriving DecidableEq

/-- `CHROMA_SPECS` from `app/utils.py`: the ordered per-standard store list. -/
def CHROMA_SPECS : List (String × List ChromaSpec) :=
  [("vcs",
    [⟨"app/embeddings_vcs/Project_documents", "Project_documents"⟩,
     ⟨"app/embeddings_vcs/Standard_documents", "Standard_documents"⟩]),
   ("icr",
    [⟨"app/embeddings_icr/Project_documents", "Project_documents"⟩,
     ⟨"app/embeddings_icr/Standard_documents", "Standard_documents"⟩]),
   ("plan_vivo",
    [⟨"app/embeddings_plan_vivo/Project_documents", "Project_documents"⟩,
     ⟨"app/embeddings_plan_vivo/Standard_documents", "Standard_documents"⟩]),
   ("other",
    [⟨"app/embeddings_other_documents/carbon_market_general_document",
      "carbon_market_general_document"⟩,
     ⟨"app/embeddings_other_documents/IPCC", "IPCC"⟩]),
   ("gs",
    [⟨"app/embeddings_gs/Project_documents", "Project_documents"⟩,
     ⟨"app/embeddings_gs/Standard_documents", "Standard_documents"⟩])]

/-- ASCII lowercasing of one character, as Python `str.lower` acts on the
ASCII range (the pipeline's alias keys and stop words are all ASCII). -/
def py_char_lower (c : Char) : Char :=
  if 'A' ≤ c && c ≤ 'Z' then Char.ofNat (c.toNat + 32) else c

/-- Python `s.lower()` (on the ASCII range). -/
def py_lower (s : String) : String :=
  (s.data.map py_char_lower).asString

/-- Python `s.replace(old, new)` on character lists: replaces every
non-overlapping occurrence of `old`, scanning left to right. The first
argument is recursion fuel (each step consumes at least the head character,
so `s.length` fuel always suffices). Python raises no error for an empty
`old`; the pipeline only replaces `"-"` and `" "`, so the empty-pattern case
never arises and is skipped like a non-match. -/
def py_replace_list (old new : List Char) : Nat → List Char → List Char
  | _, [] => []
  | 0, s => s
  | fuel + 1, c :: cs =>
    if old ≠ [] && old.isPrefixOf (c :: cs) then
      new ++ py_replace_list old new fuel (cs.drop (old.length - 1))
    else c :: py_replace_list old new fuel cs

/-- Python `s.replace(old, new)`. -/
def py_replace (s old new : String) : String :=
  (py_replace_list old.data new.data s.data.length s.data).asString

/-- Python's whitespace set for `str.strip()` (space, tab, newline, carriage
return, vertical tab, form feed). -/
def py_isspace (c : Char) : Bool :=
  [' ', '\t', '\n', '\x0d', Char.ofNat 11, Char.ofNat 12].contains c

/-- Python `s.strip()`: drop leading and trailing whitespace. -/
def py_strip (s : String) : String :=
  (((s.data.dropWhile py_isspace).reverse.dropWhile py_isspace).reverse).asString

/-- Character class of the regex `[A-Za-z0-9\-]+` used by
`expand_query_variants`. -/
def is_query_word_char (c : Char) : Bool :=
  (('A' ≤ c) && (c ≤ 'Z')) || (('a' ≤ c) && (c ≤ 'z')) ||
  (('0' ≤ c) && (c ≤ '9')) || (c == '-')

/-- Helper for `re.findall`: split a character list into the maximal runs of
characters satisfying `p` (the accumulator holds the current run reversed). -/
def re_findall_aux (p : Char → Bool) : List Char → List Char → List (List Char)
  | [], acc => if acc.isEmpty then [] else [acc.reverse]
  | c :: cs, acc =>
    if p c then re_findall_aux p cs (c :: acc)
    else if acc.isEmpty then re_findall_aux p cs []
    else acc.reverse :: re_findall_aux p cs []

/-- `re.findall(r"[A-Za-z0-9\-]+", s)` for a character class `p`. -/
def re_findall (p : Char → Bool) (s : String) : List String :=
  (re_findall_aux p s.data []).map List.asString

/-- The stop-word set of `expand_query_variants`. -/
def STOP_WORDS : List String :=
  ["what", "how", "the", "in", "is", "a", "an", "and", "or", "to", "for",
   "of", "on", "by", "be", "are", "was", "were", "it", "this", "that",
   "with", "as", "at", "from"]

/-- Python `w.rstrip("s")`: removes ALL trailing `'s'` characters. -/
def rstrip_s (w : String) : String :=
  ((w.data.reverse.dropWhile (fun c => c == 's')).reverse).asString

/-- `re.findall(r"[A-Za-z0-9\-]+", query.lower())`. -/
def query_words (query : String) : List String :=
  re_findall is_query_word_char (py_lower query)

/-- The tokens kept by the comprehension filter
`if len(w) >= 3 and w not in stop`. -/
def kept_words (query : String) : List String :=
  (query_words query).filter (fun w => 3 ≤ w.length && !(STOP_WORDS.contains w))

/-- `kws = [w.rstrip("s") for w in words if len(w) >= 3 and w not in stop]`. -/
def expanded_keywords (query : String) : List String :=
  (kept_words query).map rstrip_s

/-- Python `list(dict.fromkeys(l))`: removes duplicates keeping the first
occurrence of each element, preserving order. -/
def dict_fromkeys_aux (seen : List String) : List String → List String
  | [] => []
  | x :: xs =>
    if seen.contains x then dict_fromkeys_aux seen xs
    else x :: dict_fromkeys_aux (x :: seen) xs

/-- `list(dict.fromkeys(variants))`. -/
def dict_fromkeys (l : List String) : List String :=
  dict_fromkeys_aux [] l

/-- `expand_query_variants` from `app/utils.py`. -/
def expand_query_variants (query : String) : List String :=
  let kws := expanded_keywords query
  dict_fromkeys
    ([query] ++
     (if kws.isEmpty then [] else [" ".intercalate kws]) ++
     (if 3 < kws.length then [" ".intercalate (kws.take 3)] else []))

/-- The descending-score ordering of
`sorted(aggregated, key=lambda x: x[1], reverse=True)`. -/
def score_ge (a b : ScoredChunk) : Prop :=
  b.2 ≤ a.2

instance : DecidableRel score_ge :=
  fun a b => inferInstanceAs (Decidable (b.2 ≤ a.2))

instance : IsTotal ScoredChunk score_ge :=
  ⟨fun a b => le_total b.2 a.2⟩

instance : IsTrans ScoredChunk score_ge :=
  ⟨fun _ _ _ hab hbc => le_trans hbc hab⟩

/-- Line 132 of `app/utils.py`:
`sorted(aggregated, key=lambda x: x[1], reverse=True)[:top_k]`.
Python's `sorted` is a stable sort; `reverse=True` keeps equal-key elements in
input order. It is modelled by the stable `insertionSort` under the
descending-score ordering (any two stable sorts agree). -/
def rank_context (aggregated : List ScoredChunk) (top_k : Nat) : List ScoredChunk :=
  (List.insertionSort score_ge aggregated).take top_k

/-- The aggregation loop of `retrieve_context`: for each search key, for each
spec of that key whose store loads (`if not db: continue`), for each query
variant, extend `aggregated` with that store's search results. -/
def aggregate_search (db_ok : ChromaSpec → Bool)
    (search : ChromaSpec → String → List ScoredChunk)
    (search_keys : List String) (variants : List String) : List ScoredChunk :=
  search_keys.foldl (fun acc sk =>
    ((CHROMA_SPECS.lookup sk).getD []).foldl (fun acc2 spec =>
      if db_ok spec then
        variants.foldl (fun acc3 vq => acc3 ++ search spec vq) acc2
      else acc2) acc) []

/-- `retrieve_context` from `app/utils.py`, on the `return_scores=True` path
(the only way `get_answer` calls it; the `return_scores=False` branch returns
a differently-shaped tuple and is dead code for the pipeline). -/
def retrieve_context (db_ok : ChromaSpec → Bool)
    (search : ChromaSpec → String → List ScoredChunk)
    (query : String) (selected_standard : Option String) (top_k : Nat) :
    List ScoredChunk :=
  if query.isEmpty then []
  else
    let variants := expand_query_variants query
    let search_keys :=
      if (selected_standard.getD "").isEmpty then CHROMA_SPECS.map (fun p => p.1)
      else [selected_standard.getD ""]
    let aggregated := aggregate_search db_ok search search_keys variants
    if aggregated.isEmpty then []
    else rank_context aggregated top_k

/-- `_normalize_standard_key` from `app/rag_chat.py`. -/
def _normalize_standard_key (s : String) : Option String :=
  if s.isEmpty then none
  else
    let s_low := py_replace (py_replace (py_lower s) "-" "_") " " "_"
    List.lookup s_low
      [("vcs", "vcs"), ("verra", "vcs"),
       ("icr", "icr"),
       ("plan_vivo", "plan_vivo"), ("planvivo", "plan_vivo"),
       ("other", "other"),
       ("gs", "gs"), ("gold_standard", "gs")]

/-- Python `range(0, stop, step)` for a positive step: the multiples of
`step` below `stop`, in order. (Python raises `ValueError` on step 0; the
pipeline only uses step 5, so that case is modelled as the empty range.) -/
def py_range_step (stop step : Nat) : List Nat :=
  (List.range ((stop + step - 1) / step)).map (fun i => i * step)

/-- `batch_chunks` from `app/rag_chat.py`: yield successive `n`-sized batches,
`lst[i:i+n]` for `i in range(0, len(lst), n)`. -/
def batch_chunks (lst : List α) (n : Nat) : List (List α) :=
  (py_range_step lst.length n).map (fun i => (lst.drop i).take n)

/-- One `openai_client.chat.completions.create(...)` request: the model, the
system message, the user message and the temperature it is issued with. -/
structure CompletionRequest where
  model : String
  system : String
  user : String
  temperature : ℚ
deriving DecidableEq

/-- The `batch_text` accumulation loop of the Map phase:
`for i, (doc, _) in enumerate(batch, start=1): batch_text += ...`. -/
def batch_text : Nat → List ScoredChunk → String
  | _, [] => ""
  | i, (doc, _) :: rest =>
    "\nCHUNK " ++ toString i ++ ":\n" ++ doc.page_content ++ "\n" ++
      batch_text (i + 1) rest

/-- The Map-phase `map_prompt` f-string of `get_answer`. -/
def map_prompt (query : String) (batch : List ScoredChunk) : String :=
  "\n        QUESTION: " ++ query ++
  "\n\n        You are given multiple CHUNKS of text. For EACH CHUNK:\n\n" ++
  "        1. Summarize only the information relevant to the QUESTION.\n" ++
  "        2. Write the summary in bullet points.\n" ++
  "        3. If the CHUNK contains reference info (page numbers, section titles, or document names), include it in parentheses.\n\n        " ++
  batch_text 1 batch ++ "\n        "

/-- The completion request issued for one Map-phase batch: note the literal
`temperature=0`, independent of `get_answer`'s `temperature` argument. -/
def map_request (model query : String) (batch : List ScoredChunk) :
    CompletionRequest :=
  { model := model,
    system := "You are a summarization assistant.",
    user := map_prompt query batch,
    temperature := 0 }

/-- The inline marker appended when a Map-phase call raises:
`summaries.append(f"[Error summarizing batch: {e}]")`. -/
def map_error_marker (e : String) : String :=
  "[Error summarizing batch: " ++ e ++ "]"

/-- The Map phase of `get_answer`: one completion call per batch, in batch
order; a successful call contributes its stripped content, a failed call
contributes `map_error_marker` and processing continues with the next batch.
Returns the partial summaries and the trace of requests issued. -/
def map_phase (complete : CompletionRequest → Except String String)
    (model query : String) :
    List (List ScoredChunk) → List String × List CompletionRequest
  | [] => ([], [])
  | batch :: rest =>
    let req := map_request model query batch
    let summary :=
      match complete req with
      | Except.ok content => py_strip content
      | Except.error e => map_error_marker e
    let tail := map_phase complete model query rest
    (summary :: tail.1, req :: tail.2)

/-- The Reduce-phase `reduce_prompt` f-string of `get_answer`, over
`chr(10).join(summaries)`. -/
def reduce_prompt (query : String) (summaries : List String) : String :=
  "\n    QUESTION: " ++ query ++
  "\n\n    You are given multiple PARTIAL SUMMARIES extracted from different chunks of documents.\n\n" ++
  "    TASK:\n" ++
  "    - Write a comprehensive, exhaustive, and well-structured answer to the QUESTION.\n" ++
  "    - Present the answer in a numbered or bulleted format.\n" ++
  "    - Merge overlapping points but do not drop unique details.\n" ++
  "    - Always cite references in parentheses if present (e.g., Page 12, Section 4.2, Project Document).\n" ++
  "    - Organize the answer by themes or categories if multiple aspects are present.\n\n" ++
  "    PARTIAL SUMMARIES:\n    " ++ "\n".intercalate summaries ++ "\n    "

/-- The single Reduce-phase completion request: its temperature is
`get_answer`'s `temperature` argument. -/
def reduce_request (model query : String) (summaries : List String)
    (temperature : ℚ) : CompletionRequest :=
  { model := model,
    system := "You are an expert assistant specialized in carbon credit standards.",
    user := reduce_prompt query summaries,
    temperature := temperature }

/-- One entry of the `highlights` list of a successful answer. -/
structure Highlight where
  snippet : String
  page : String
deriving DecidableEq

/-- The highlight derived from one ranked chunk:
`{"snippet": doc.page_content[:200] + "...", "page": doc.metadata.get("page", "N/A")}`. -/
def highlight_of (sc : ScoredChunk) : Highlight :=
  { snippet := sc.1.page_content.take 200 ++ "...",
    page := dict_get sc.1.metadata "page" "N/A" }

/-- The result dict of `get_answer`. A key absent from the returned Python
dict (e.g. `clarification` on the non-clarification paths) is `none`. -/
structure AnswerResult where
  clarification : Option String := none
  answer : Option String := none
  sources : List (List (String × String)) := []
  highlights : List Highlight := []
deriving DecidableEq

/-- The clarification message returned when no standard is selected. -/
def clarification_text : String :=
  "Please choose a standard: VCS, ICR, PLAN_VIVO, GS, OTHER"

/-- `get_answer` from `app/rag_chat.py`. Returns the result (`Except.error`
models an uncaught exception — only the unguarded Reduce-phase call can raise
one) paired with the ordered trace of completion requests issued. -/
def get_answer (complete : CompletionRequest → Except String String)
    (db_ok : ChromaSpec → Bool)
    (search : ChromaSpec → String → List ScoredChunk)
    (query : String) (selected_standard : Option String)
    (model : String) (temperature : ℚ) :
    Except String AnswerResult × List CompletionRequest :=
  if (selected_standard.getD "").isEmpty then
    (Except.ok { clarification := some clarification_text, answer := none,
                 sources := [], highlights := [] }, [])
  else
    match _normalize_standard_key (selected_standard.getD "") with
    | none =>
      (Except.ok { answer := some "Invalid or unsupported standard selected.",
                   sources := [], highlights := [] }, [])
    | some standard_key =>
      let results := retrieve_context db_ok search query (some standard_key) 20
      if results.isEmpty then
        (Except.ok { answer := some "No relevant information found.",
                     sources := [], highlights := [] }, [])
      else
        let sources := results.map (fun r => r.1.metadata)
        let mp := map_phase complete model query (batch_chunks results 5)
        let rreq := reduce_request model query mp.1 temperature
        match complete rreq with
        | Except.error e => (Except.error e, mp.2 ++ [rreq])
        | Except.ok content =>
          (Except.ok { answer := some (py_strip content),
                       sources := sources,
                       highlights := results.map highlight_of },
           mp.2 ++ [rreq])

/-! Concrete collaborator fixtures, used to evaluate the pipeline on closed
inputs. -/

/-- A concrete document chunk. -/
def docA : Document :=
  { page_content := "alpha content", metadata := [("page", "1"), ("source", "a.pdf")] }

/-- A second concrete document chunk (no page metadata). -/
def docB : Document :=
  { page_content := "beta content", metadata := [("source", "b.pdf")] }

/-- A store collaborator that finds `docA` in every project-document store and
nothing in the standard-document stores. -/
def search_fix : ChromaSpec → String → List ScoredChunk :=
  fun spec _ => if spec.collection = "Standard_documents" then [] else [(docA, 2)]

/-- A completion collaborator that always succeeds. -/
def complete_ok : CompletionRequest → Except String String :=
  fun _ => Except.ok "FINAL ANSWER"

/-- A completion collaborator that raises on every Map-phase request and
succeeds on every other request. -/
def complete_map_fail : CompletionRequest → Except String String :=
  fun req =>
    if req.system = "You are a summarization assistant." then Except.error "boom"
    else Except.ok "FINAL"

/-!           Theorems about the claims.           -/

/-- C9: a query all of whose tokens are stop words or shorter than 3
characters expands to exactly the one-element list holding the original
query; and for every query the original query is the first variant. -/
theorem expansion_identity (query : String) :
    (expand_query_variants query).head? = some query ∧
    ((∀ w ∈ query_words query, w.length < 3 ∨ w ∈ STOP_WORDS) →
      expand_query_variants query = [query]) := by
  have hstruct : ∀ (t : List String),
      (dict_fromkeys (query :: t)).head? = some query := by
    intro t
    simp [dict_fromkeys, dict_fromkeys_aux]
  constructor
  · simp only [expand_query_variants]
    simp only [List.append_assoc, List.cons_append, List.nil_append]
    exact hstruct _
  · intro h
    have hk : kept_words query = [] := by
      rw [kept_words, List.filter_eq_nil_iff]
      intro w hw
      rcases h w hw with h1 | h2
      · simp
        intro hlen
        omega
      · simp [h2]
    have he : expanded_keywords query = [] := by
      simp [expanded_keywords, hk]
    simp [expand_query_variants, he, dict_fromkeys, dict_fromkeys_aux]

/-- C9 witness: the all-stop-word query of the spec's example expands to
itself alone. -/
theorem expansion_identity_witness :
    expand_query_variants "the is a of" = ["the is a of"] :=
  (expansion_identity "the is a of").2 (by decide)

/-- C4: standard resolution is case/separator-insensitive over the fixed
alias map ("Verra", "VCS" and "vcs" all resolve to the canonical key "vcs"),
and an unknown label such as "xyz" yields the user-visible invalid-standard
message as a normal return value, not an exception. -/
theorem standard_resolution_insensitive :
    _normalize_standard_key "Verra" = some "vcs" ∧
    _normalize_standard_key "VCS" = some "vcs" ∧
    _normalize_standard_key "vcs" = some "vcs" ∧
    _normalize_standard_key "xyz" = none ∧
    (∀ complete db_ok search query model temperature,
      get_answer complete db_ok search query (some "xyz") model temperature =
        (Except.ok { answer := some "Invalid or unsupported standard selected.",
                     sources := [], highlights := [] }, [])) :=
  ⟨by decide, by decide, by decide, by decide, fun _ _ _ _ _ _ => rfl⟩

/-- C3: an absent (null or empty) standard selector yields the clarification
outcome with a null answer and empty sources/highlights, regardless of the
query; a non-null unrecognized selector yields the distinct invalid-standard
outcome, and the two results differ. -/
theorem clarification_distinct_outcome :
    (∀ complete db_ok search query model temperature,
      get_answer complete db_ok search query none model temperature =
        (Except.ok { clarification := some clarification_text, answer := none,
                     sources := [], highlights := [] }, []) ∧
      get_answer complete db_ok search query (some "") model temperature =
        (Except.ok { clarification := some clarification_text, answer := none,
                     sources := [], highlights := [] }, [])) ∧
    (∀ s, s.isEmpty = false → _normalize_standard_key s = none →
      ∀ complete db_ok search query model temperature,
        get_answer complete db_ok search query (some s) model temperature =
          (Except.ok { answer := some "Invalid or unsupported standard selected.",
                       sources := [], highlights := [] }, [])) ∧
    ({ clarification := some clarification_text, answer := none, sources := [],
       highlights := [] } : AnswerResult) ≠
      { clarification := none,
        answer := some "Invalid or unsupported standard selected.",
        sources := [], highlights := [] } := by
  refine ⟨fun _ _ _ _ _ _ => ⟨rfl, rfl⟩, ?_, by decide⟩
  intro s hs hnorm complete db_ok search query model temperature
  simp [get_answer, hs, hnorm]

/-- C3 witness: the unrecognized selector "xyz" produces the invalid-standard
outcome on concrete collaborators. -/
theorem clarification_distinct_outcome_witness :
    get_answer complete_ok (fun _ => true) search_fix "q" (some "xyz") "gpt-4.1" 0 =
      (Except.ok { answer := some "Invalid or unsupported standard selected.",
                   sources := [], highlights := [] }, []) :=
  clarification_distinct_outcome.2.1 "xyz" rfl (by decide)
    complete_ok (fun _ => true) search_fix "q" "gpt-4.1" 0

/-- C2: when the standard resolves but aggregated retrieval is empty,
`get_answer` returns exactly the fixed no-information result with empty
sources and highlights, and issues no completion request at all (the request
trace is empty). -/
theorem empty_retrieval_short_circuit (complete db_ok search : _)
    (query std key model : String) (temperature : ℚ)
    (hkey : _normalize_standard_key std = some key)
    (hempty : retrieve_context db_ok search query (some key) 20 = []) :
    get_answer complete db_ok search query (some std) model temperature =
      (Except.ok { answer := some "No relevant information found.",
                   sources := [], highlights := [] }, []) := by
  have hstd : std.isEmpty = false := by
    cases h : std.isEmpty
    · rfl
    · rw [_normalize_standard_key, if_pos h] at hkey
      cases hkey
  simp [get_answer, hstd, hkey, hempty]

/-- C2 witness: the spec's end-to-end scenario — the VCS query against stores
that return nothing yields the fixed no-information result and no completion
call. -/
theorem empty_retrieval_short_circuit_witness :
    get_answer complete_ok (fun _ => true) (fun _ _ => [])
        "What is the VCS Standard?" (some "vcs") "gpt-4.1" 0 =
      (Except.ok { answer := some "No relevant information found.",
                   sources := [], highlights := [] }, []) :=
  empty_retrieval_short_circuit complete_ok (fun _ => true) (fun _ _ => [])
    "What is the VCS Standard?" "vcs" "vcs" "gpt-4.1" 0 rfl (by decide)

/-- C8 counterexample: the kept keyword of the query "boss" is "bo" — two
characters were removed, not the single trailing "s" the claim states. -/
theorem singularization_counterexample :
    expand_query_variants "boss" = ["boss", "bo"] ∧
    expand_query_variants "boss" ≠ ["boss", "bos"] :=
  ⟨by decide, by decide⟩

/-- C8 amended: every kept keyword token is singularized by stripping ALL
trailing "s" characters — the stripped token never ends in "s", the original
token is the stripped token followed by a run of "s" characters, and a token
not ending in "s" is unchanged. -/
theorem singularization_strips_all_trailing_s :
    (∀ query, expanded_keywords query = (kept_words query).map rstrip_s) ∧
    (∀ w : String,
      (rstrip_s w).data.getLast? ≠ some 's' ∧
      (∃ k, w.data = (rstrip_s w).data ++ List.replicate k 's') ∧
      (w.data.getLast? ≠ some 's' → rstrip_s w = w)) := by
  have hdw : ∀ (l : List Char),
      (l.dropWhile (fun c => c == 's')).head? ≠ some 's' := by
    intro l
    induction l with
    | nil => simp
    | cons c cs ih =>
      by_cases h : c = 's'
      · simpa [List.dropWhile_cons, h] using ih
      · simp [List.dropWhile_cons, h]
  refine ⟨fun _ => rfl, fun w => ⟨?_, ?_, ?_⟩⟩
  · show ((w.data.reverse.dropWhile (fun c => c == 's')).reverse.asString).data.getLast? ≠ some 's'
    rw [show ∀ (l : List Char), (List.asString l).data = l from fun _ => rfl]
    rw [List.getLast?_reverse]
    exact hdw _
  · refine ⟨(w.data.reverse.takeWhile (fun c => c == 's')).length, ?_⟩
    rw [show ((rstrip_s w).data) = (w.data.reverse.dropWhile (fun c => c == 's')).reverse from rfl]
    have ht : (w.data.reverse.takeWhile (fun c => c == 's')) =
        List.replicate (w.data.reverse.takeWhile (fun c => c == 's')).length 's' := by
      apply List.eq_replicate_of_mem
      intro b hb
      have := List.mem_takeWhile_imp hb
      simpa using this
    calc w.data = w.data.reverse.reverse := (List.reverse_reverse _).symm
      _ = (w.data.reverse.takeWhile (fun c => c == 's') ++
            w.data.reverse.dropWhile (fun c => c == 's')).reverse := by
          rw [List.takeWhile_append_dropWhile]
      _ = (w.data.reverse.dropWhile (fun c => c == 's')).reverse ++
            (w.data.reverse.takeWhile (fun c => c == 's')).reverse := by
          rw [List.reverse_append]
      _ = (w.data.reverse.dropWhile (fun c => c == 's')).reverse ++
            List.replicate (w.data.reverse.takeWhile (fun c => c == 's')).length 's' := by
          conv_lhs => rw [ht, List.reverse_replicate]
  · intro h
    have hrev : w.data.reverse.head? ≠ some 's' := by
      rw [List.head?_reverse]
      exact h
    have hdrop : w.data.reverse.dropWhile (fun c => c == 's') = w.data.reverse := by
      cases hc : w.data.reverse with
      | nil => rfl
      | cons c cs =>
        have : c ≠ 's' := by
          intro hcs
          apply hrev
          rw [hc, hcs]
          rfl
        simp [List.dropWhile_cons, this]
    show ((w.data.reverse.dropWhile (fun c => c == 's')).reverse).asString = w
    rw [hdrop, List.reverse_reverse]
    rfl

/-- C8 amended witness: a token without a trailing "s" is unchanged. -/
theorem singularization_strips_all_trailing_s_witness :
    rstrip_s "tree" = "tree" :=
  ((singularization_strips_all_trailing_s).2 "tree").2.2 (by decide)

theorem ranking_contract (l : List ScoredChunk) (k : Nat) :
    (rank_context l k).length = min l.length k ∧
    (rank_context l k).Pairwise score_ge ∧
    (∀ x ∈ rank_context l k, x ∈ l) ∧
    ((l.map Prod.snd).Nodup → (rank_context l k).Pairwise (fun a b => b.2 < a.2)) ∧
    (∀ a b : ScoredChunk, List.Sublist [a, b] l → b.2 ≤ a.2 →
      List.Sublist [a, b] (List.insertionSort score_ge l)) ∧
    (∀ db_ok search (query std : String),
      query.isEmpty = false → std.isEmpty = false →
      aggregate_search db_ok search [std] (expand_query_variants query) ≠ [] →
      retrieve_context db_ok search query (some std) k =
        rank_context (aggregate_search db_ok search [std] (expand_query_variants query)) k) := by
  have hsort : (List.insertionSort score_ge l).Pairwise score_ge :=
    List.sorted_insertionSort score_ge l
  have hperm : List.Perm (List.insertionSort score_ge l) l := List.perm_insertionSort score_ge l
  refine ⟨?_, ?_, ?_, ?_, ?_, ?_⟩
  · simp [rank_context, List.length_take, List.length_insertionSort, Nat.min_comm]
  · exact List.Pairwise.sublist (List.take_sublist k _) hsort
  · intro x hx
    exact (List.mem_insertionSort score_ge).mp ((List.take_sublist k _).subset hx)
  · intro hno
    have hne : l.Pairwise (fun a b => a.2 ≠ b.2) := List.pairwise_map.mp hno
    have hne' : (List.insertionSort score_ge l).Pairwise (fun a b => a.2 ≠ b.2) :=
      (hperm.pairwise_iff (fun h => h.symm)).mpr hne
    have hstrict : (List.insertionSort score_ge l).Pairwise (fun a b => b.2 < a.2) := by
      refine (hsort.and hne').imp ?_
      rintro a b ⟨h1, h2⟩
      exact lt_of_le_of_ne h1 (Ne.symm h2)
    exact List.Pairwise.sublist (List.take_sublist k _) hstrict
  · intro a b hab hle
    exact List.pair_sublist_insertionSort hle hab
  · intro db_ok search query std hq hstd hagg
    have hfalse : (aggregate_search db_ok search [std] (expand_query_variants query)).isEmpty = false := by
      cases hl : aggregate_search db_ok search [std] (expand_query_variants query)
      · exact absurd hl hagg
      · rfl
    simp [retrieve_context, hq, hstd, hfalse]
/-- C5 witness: on a concrete two-chunk aggregation with distinct scores the
ranked context is strictly descending. -/
theorem ranking_contract_witness :
    (rank_context [(docA, (1:ℚ)), (docB, 3)] 20).Pairwise (fun a b => b.2 < a.2) :=
  ((ranking_contract [(docA, (1:ℚ)), (docB, 3)] 20).2.2.2.1) (by decide)

/-- Batching an empty list yields no batches. -/
theorem batch_chunks_nil {α : Type} (n : Nat) : batch_chunks ([] : List α) n = [] := by
  have h0 : (n - 1) / n = 0 := by
    cases n with
    | zero => simp
    | succ m => exact Nat.div_eq_of_lt (by omega)
  simp [batch_chunks, py_range_step, h0]

/-- Arithmetic step of the batch count: one batch plus the batches of the
rest. -/
theorem ceil_div_succ (L n : Nat) (hn : 0 < n) (hL : 0 < L) :
    (L + n - 1) / n = ((L - n) + n - 1) / n + 1 := by
  rcases le_or_lt L n with h | h
  · have h1 : L - n = 0 := by omega
    rw [h1, Nat.zero_add, Nat.div_eq_of_lt (show n - 1 < n by omega)]
    show (L + n - 1) / n = 1
    exact Nat.div_eq_of_lt_le (by omega) (by omega)
  · have h1 : L - n + n - 1 = L - 1 := by omega
    have h2 : L + n - 1 = (L - 1) + n := by omega
    rw [h1, h2, Nat.add_div_right _ hn]

/-- `range(0, L, n)` for positive `L` is `0` followed by the shifted range of
the remainder. -/
theorem py_range_step_succ (L n : Nat) (hn : 0 < n) (hL : 0 < L) :
    py_range_step L n = 0 :: (py_range_step (L - n) n).map (fun i => i + n) := by
  rw [py_range_step, py_range_step, ceil_div_succ L n hn hL]
  rw [List.range_succ_eq_map]
  simp [List.map_map, Function.comp_def, Nat.succ_mul]

/-- Unfolding of `batch_chunks` on a nonempty list: the first `n`-prefix
followed by the batches of the rest. -/
theorem batch_chunks_cons {α : Type} (n : Nat) (hn : 0 < n) (lst : List α)
    (h : lst ≠ []) :
    batch_chunks lst n = lst.take n :: batch_chunks (lst.drop n) n := by
  have hL : 0 < lst.length := List.length_pos.mpr h
  rw [batch_chunks, batch_chunks, py_range_step_succ lst.length n hn hL]
  rw [List.length_drop]
  simp only [List.map_cons, List.drop_zero, List.map_map]
  congr 1
  apply List.map_congr_left
  intro i _
  simp [Function.comp_def, List.drop_drop, Nat.add_comm]

/-- The batches concatenate back to the input list (contiguous,
order-preserving partition). -/
theorem batch_chunks_join {α : Type} (n : Nat) (hn : 0 < n) :
    ∀ (lst : List α), (batch_chunks lst n).flatten = lst
  | [] => by simp [batch_chunks_nil]
  | x :: xs => by
    rw [batch_chunks_cons n hn _ (by simp)]
    rw [List.flatten_cons]
    rw [batch_chunks_join n hn ((x :: xs).drop n)]
    exact List.take_append_drop n (x :: xs)
termination_by lst => lst.length
decreasing_by
  simp [List.length_drop]
  omega

/-- Every batch is nonempty and no longer than the batch size. -/
theorem batch_chunks_sizes {α : Type} (n : Nat) (hn : 0 < n) :
    ∀ (lst : List α), ∀ b ∈ batch_chunks lst n, b.length ≤ n ∧ b ≠ []
  | [] => by simp [batch_chunks_nil]
  | x :: xs => by
    rw [batch_chunks_cons n hn _ (by simp)]
    intro b hb
    rcases List.mem_cons.mp hb with rfl | h
    · refine ⟨List.length_take_le n (x :: xs), ?_⟩
      cases n with
      | zero => omega
      | succ m => simp [List.take]
    · exact batch_chunks_sizes n hn ((x :: xs).drop n) b h
termination_by lst => lst.length
decreasing_by
  simp [List.length_drop]
  omega

/-- Every batch except possibly the last has exactly the batch size. -/
theorem batch_chunks_full_sizes {α : Type} (n : Nat) (hn : 0 < n) :
    ∀ (lst : List α), ∀ b ∈ (batch_chunks lst n).dropLast, b.length = n
  | [] => by simp [batch_chunks_nil]
  | x :: xs => by
    rw [batch_chunks_cons n hn _ (by simp)]
    cases hrest : batch_chunks ((x :: xs).drop n) n with
    | nil => simp
    | cons r rs =>
      intro b hb
      rw [show ((x :: xs).take n :: r :: rs).dropLast =
          (x :: xs).take n :: (r :: rs).dropLast from rfl] at hb
      rcases List.mem_cons.mp hb with rfl | h
      · have hd : (x :: xs).drop n ≠ [] := by
          intro hdrop
          rw [hdrop, batch_chunks_nil] at hrest
          cases hrest
        have hlen : n < (x :: xs).length := by
          by_contra hc
          exact hd (List.drop_eq_nil_of_le (by omega))
        rw [List.length_take]
        simp only [List.length_cons] at hlen ⊢
        omega
      · rw [← hrest] at h
        exact batch_chunks_full_sizes n hn ((x :: xs).drop n) b h
termination_by lst => lst.length
decreasing_by
  simp [List.length_drop]
  omega

/-- Closed form of the Map phase: one summary and one request per batch, in
batch order; a failed call contributes the inline error marker. -/
theorem map_phase_spec (complete : CompletionRequest → Except String String)
    (model query : String) (batches : List (List ScoredChunk)) :
    map_phase complete model query batches =
      (batches.map (fun b =>
        match complete (map_request model query b) with
        | Except.ok content => py_strip content
        | Except.error e => map_error_marker e),
       batches.map (map_request model query)) := by
  induction batches with
  | nil => rfl
  | cons b bs ih => simp [map_phase, ih]

/-- C6: for a ranked context of length M and batch size B the Map phase
partitions it into exactly ceil(M/B) contiguous order-preserving batches,
each of size B except a possibly smaller final one, and issues exactly one
completion call per batch; for M = 12 and B = 5 the batch sizes are 5, 5, 2. -/
theorem map_batching_contract :
    (∀ (α : Type) (lst : List α) (n : Nat), 0 < n →
      (batch_chunks lst n).length = (lst.length + n - 1) / n ∧
      (batch_chunks lst n).flatten = lst ∧
      (∀ b ∈ batch_chunks lst n, b.length ≤ n ∧ b ≠ []) ∧
      (∀ b ∈ (batch_chunks lst n).dropLast, b.length = n)) ∧
    ((batch_chunks (List.range 12) 5).map List.length = [5, 5, 2]) ∧
    (∀ complete model query batches,
      (map_phase complete model query batches).2 =
        batches.map (map_request model query)) := by
  refine ⟨?_, by decide, ?_⟩
  · intro α lst n hn
    refine ⟨?_, batch_chunks_join n hn lst, batch_chunks_sizes n hn lst,
      batch_chunks_full_sizes n hn lst⟩
    simp [batch_chunks, py_range_step]
  · intro complete model query batches
    rw [map_phase_spec]

/-- C6 witness: 12 chunks in batches of 5 give 3 Map-phase batches. -/
theorem map_batching_contract_witness :
    (batch_chunks (List.range 12) 5).length = 3 := by
  have h := (map_batching_contract.1 Nat (List.range 12) 5 (by decide)).1
  simpa using h

/-- A label that resolves to a standard key is nonempty. -/
theorem std_isEmpty_false_of_key {std key : String}
    (hkey : _normalize_standard_key std = some key) : std.isEmpty = false := by
  cases h : std.isEmpty
  · rfl
  · rw [_normalize_standard_key, if_pos h] at hkey
    cases hkey

/-- A list other than `[]` has `isEmpty = false`. -/
theorem isEmpty_false_of_ne_nil {α : Type} {l : List α} (h : l ≠ []) :
    l.isEmpty = false := by
  cases l
  · exact absurd rfl h
  · rfl

/-- Path lemma: once the standard resolves and retrieval is nonempty,
`get_answer` runs the Map phase over the batched ranked context (one request
per batch, errors inlined), issues the single Reduce request over the partial
summaries, and returns the assembled result (or propagates a Reduce-phase
error), with the full request trace. -/
theorem get_answer_success_path (complete : CompletionRequest → Except String String)
    (db_ok : ChromaSpec → Bool) (search : ChromaSpec → String → List ScoredChunk)
    (query std key model : String) (temperature : ℚ)
    (hkey : _normalize_standard_key std = some key)
    (hres : retrieve_context db_ok search query (some key) 20 ≠ []) :
    get_answer complete db_ok search query (some std) model temperature =
      ((match complete (reduce_request model query
            ((batch_chunks (retrieve_context db_ok search query (some key) 20) 5).map
              (fun b => match complete (map_request model query b) with
                | Except.ok content => py_strip content
                | Except.error e => map_error_marker e)) temperature) with
        | Except.error e => Except.error e
        | Except.ok content =>
          Except.ok { answer := some (py_strip content),
                      sources := (retrieve_context db_ok search query (some key) 20).map
                        (fun x => x.1.metadata),
                      highlights := (retrieve_context db_ok search query (some key) 20).map
                        highlight_of }),
       (batch_chunks (retrieve_context db_ok search query (some key) 20) 5).map
           (map_request model query) ++
         [reduce_request model query
            ((batch_chunks (retrieve_context db_ok search query (some key) 20) 5).map
              (fun b => match complete (map_request model query b) with
                | Except.ok content => py_strip content
                | Except.error e => map_error_marker e)) temperature]) := by
  have hstd := std_isEmpty_false_of_key hkey
  have hfalse := isEmpty_false_of_ne_nil hres
  simp only [get_answer, Option.getD_some, hstd, hkey, hfalse, map_phase_spec,
    Bool.false_eq_true, if_false]
  cases hc : complete (reduce_request model query
      ((batch_chunks (retrieve_context db_ok search query (some key) 20) 5).map
        (fun b => match complete (map_request model query b) with
          | Except.ok content => py_strip content
          | Except.error e => map_error_marker e)) temperature) <;> rfl

/-- C1: on the success path, `sources` and `highlights` have exactly the
length of the ranked context, the i-th source is the metadata of the i-th
ranked chunk and the i-th highlight is derived from the i-th ranked chunk, in
the same order with no deduplication. -/
theorem answer_assembly_invariant (complete : CompletionRequest → Except String String)
    (db_ok : ChromaSpec → Bool) (search : ChromaSpec → String → List ScoredChunk)
    (query std key model : String) (temperature : ℚ) (r : AnswerResult)
    (hkey : _normalize_standard_key std = some key)
    (hres : retrieve_context db_ok search query (some key) 20 ≠ [])
    (hok : (get_answer complete db_ok search query (some std) model temperature).1 =
      Except.ok r) :
    r.sources = (retrieve_context db_ok search query (some key) 20).map
        (fun x => x.1.metadata) ∧
    r.highlights = (retrieve_context db_ok search query (some key) 20).map highlight_of ∧
    r.sources.length = (retrieve_context db_ok search query (some key) 20).length ∧
    r.highlights.length = (retrieve_context db_ok search query (some key) 20).length := by
  rw [get_answer_success_path complete db_ok search query std key model temperature
    hkey hres] at hok
  cases hc : complete (reduce_request model query
      ((batch_chunks (retrieve_context db_ok search query (some key) 20) 5).map
        (fun b => match complete (map_request model query b) with
          | Except.ok content => py_strip content
          | Except.error e => map_error_marker e)) temperature) with
  | error e =>
    rw [hc] at hok
    cases hok
  | ok content =>
    rw [hc] at hok
    cases hok
    simp [List.length_map]

/-- C1 witness: on a concrete one-chunk retrieval the assembled result pairs
each ranked chunk with its source and highlight. -/
theorem answer_assembly_invariant_witness :
    ({ answer := some "FINAL ANSWER", sources := [docA.metadata],
       highlights := [highlight_of (docA, 2)] } : AnswerResult).sources =
      (retrieve_context (fun _ => true) search_fix "alpha" (some "vcs") 20).map
        (fun x => x.1.metadata) ∧
    ({ answer := some "FINAL ANSWER", sources := [docA.metadata],
       highlights := [highlight_of (docA, 2)] } : AnswerResult).highlights =
      (retrieve_context (fun _ => true) search_fix "alpha" (some "vcs") 20).map
        highlight_of ∧
    ({ answer := some "FINAL ANSWER", sources := [docA.metadata],
       highlights := [highlight_of (docA, 2)] } : AnswerResult).sources.length =
      (retrieve_context (fun _ => true) search_fix "alpha" (some "vcs") 20).length ∧
    ({ answer := some "FINAL ANSWER", sources := [docA.metadata],
       highlights := [highlight_of (docA, 2)] } : AnswerResult).highlights.length =
      (retrieve_context (fun _ => true) search_fix "alpha" (some "vcs") 20).length :=
  answer_assembly_invariant complete_ok (fun _ => true) search_fix "alpha" "vcs" "vcs"
    "gpt-4.1" 0 _ rfl (by decide) rfl

/-- C7: a Map-phase batch whose completion call raises contributes an inline
error marker holding the failure reason, every other batch is still
processed in order, the Reduce phase runs over all partial summaries in batch
order (markers included), and a final answer is returned — no Map-phase
exception escapes (the conclusion holds for every `complete`, in particular
ones that raise on any subset of the Map requests). -/
theorem map_failure_isolation :
    (∀ complete model query batches,
      (map_phase complete model query batches).1 =
        batches.map (fun b =>
          match complete (map_request model query b) with
          | Except.ok content => py_strip content
          | Except.error e => map_error_marker e)) ∧
    (∀ (complete : CompletionRequest → Except String String)
       (db_ok : ChromaSpec → Bool) (search : ChromaSpec → String → List ScoredChunk)
       (query std key model : String) (temperature : ℚ) (c : String),
      _normalize_standard_key std = some key →
      retrieve_context db_ok search query (some key) 20 ≠ [] →
      (∀ summaries, complete (reduce_request model query summaries temperature) =
        Except.ok c) →
      get_answer complete db_ok search query (some std) model temperature =
        (Except.ok { answer := some (py_strip c),
                     sources := (retrieve_context db_ok search query (some key) 20).map
                       (fun x => x.1.metadata),
                     highlights := (retrieve_context db_ok search query (some key) 20).map
                       highlight_of },
         (batch_chunks (retrieve_context db_ok search query (some key) 20) 5).map
             (map_request model query) ++
           [reduce_request model query
             ((batch_chunks (retrieve_context db_ok search query (some key) 20) 5).map
               (fun b => match complete (map_request model query b) with
                 | Except.ok content => py_strip content
                 | Except.error e => map_error_marker e)) temperature])) := by
  constructor
  · intro complete model query batches
    rw [map_phase_spec]
  · intro complete db_ok search query std key model temperature c hkey hres hred
    rw [get_answer_success_path complete db_ok search query std key model temperature
      hkey hres]
    rw [hred]

/-- C7 witness: with a completion collaborator that raises on every Map
request, the answer is still produced and the Reduce prompt receives the
error marker. -/
theorem map_failure_isolation_witness :
    get_answer complete_map_fail (fun _ => true) search_fix "alpha" (some "vcs")
        "gpt-4.1" 0 =
      (Except.ok { answer := some "FINAL", sources := [docA.metadata],
                   highlights := [highlight_of (docA, 2)] },
       [map_request "gpt-4.1" "alpha" [(docA, 2)],
        reduce_request "gpt-4.1" "alpha" [map_error_marker "boom"] 0]) := by
  have h := map_failure_isolation.2 complete_map_fail (fun _ => true) search_fix
    "alpha" "vcs" "vcs" "gpt-4.1" 0 "FINAL" rfl (by decide) (fun _ => rfl)
  exact h

/-- C10: every Map-phase request is issued with temperature 0 regardless of
the temperature argument, and the caller-supplied temperature is applied
exactly to the single final Reduce-phase request (when any request is issued
at all). -/
theorem temperature_discipline (complete : CompletionRequest → Except String String)
    (db_ok : ChromaSpec → Bool) (search : ChromaSpec → String → List ScoredChunk)
    (query : String) (selected_standard : Option String) (model : String)
    (temperature : ℚ) :
    (get_answer complete db_ok search query selected_standard model temperature).2 = [] ∨
    ∃ mapReqs summaries,
      (get_answer complete db_ok search query selected_standard model temperature).2 =
        mapReqs ++ [reduce_request model query summaries temperature] ∧
      (∀ req ∈ mapReqs, req.temperature = 0 ∧
        req.system = "You are a summarization assistant.") ∧
      (reduce_request model query summaries temperature).temperature = temperature := by
  cases hsel : (selected_standard.getD "").isEmpty with
  | true => left; simp [get_answer, hsel]
  | false =>
    cases hnorm : _normalize_standard_key (selected_standard.getD "") with
    | none => left; simp [get_answer, hsel, hnorm]
    | some key =>
      cases hre : (retrieve_context db_ok search query (some key) 20).isEmpty with
      | true => left; simp [get_answer, hsel, hnorm, hre]
      | false =>
        right
        refine ⟨(batch_chunks (retrieve_context db_ok search query (some key) 20) 5).map
            (map_request model query),
          (batch_chunks (retrieve_context db_ok search query (some key) 20) 5).map
            (fun b => match complete (map_request model query b) with
              | Except.ok content => py_strip content
              | Except.error e => map_error_marker e), ?_, ?_, rfl⟩
        · simp only [get_answer, hsel, hnorm, hre, map_phase_spec,
            Bool.false_eq_true, if_false]
          cases hc : complete (reduce_request model query
              ((batch_chunks (retrieve_context db_ok search query (some key) 20) 5).map
                (fun b => match complete (map_request model query b) with
                  | Except.ok content => py_strip content
                  | Except.error e => map_error_marker e)) temperature) <;> rfl
        · intro req hreq
          obtain ⟨b, hb, rfl⟩ := List.mem_map.mp hreq
          exact ⟨rfl, rfl⟩
